import Mathlib

/-!
Verification development for the `simple_ecommerce_data_pipeline` repository.

The Python sources are shallowly embedded as Lean definitions:

* `src/web_scraper.py`  — `EcommerceScraper`: the static listing crawl
  (`scrape_product_listings`), the Selenium review crawl
  (`scrape_reviews_selenium`), and the per-field extraction helpers
  (`_extract_product_data`, `_extract_review_data`, `_clean_price`,
  `_extract_rating`, `_extract_rating_from_text`).
* `src/basic_csv_loader.py` — `SimplePostgreSQLLoader.load_csv_file`.
* `src/config.py` — `ScrapingConfig`.

Modelling conventions:

* Python `float` values are modelled as `ℚ`.  Numeric text is parsed into a
  scaled decimal `Int × Nat` (value = `num / 10 ^ scale`) so that all string
  processing stays kernel-computable; the `ℚ` value appears only at the end
  through `ratOfParse`.  The parser covers Python decimal literals
  (optional sign, digits, at most one dot); exotic `float()` inputs
  (exponents, `inf`, `nan`) are outside this model and parse to `none`.
  `str.isdigit` is modelled by `Char.isDigit` (the ASCII digits).
* Network, browser and database effects are passed in as explicit
  environment values; each outbound call is also recorded in a ghost trace
  so that retry / verification behaviour is observable.
* Exceptions are modelled by `Option` / `Except` results; a Python
  `try/except` around a region becomes a `match` on that result.
-/

/-! ## Python string helpers -/

/-- Characters of `str.strip()`: drop whitespace from both ends. -/
def pyStrip (cs : List Char) : List Char :=
  ((cs.dropWhile Char.isWhitespace).reverse.dropWhile Char.isWhitespace).reverse

/-- The Python `in` test for strings: `needle` occurs contiguously in `hay`. -/
def containsSub (needle hay : List Char) : Bool :=
  (List.range (hay.length + 1)).any (fun i => needle.isPrefixOf (hay.drop i))

/-- Python `str.split()` with no argument: split on runs of whitespace,
dropping empty pieces.  `acc` holds the current word reversed. -/
def pySplitWsAux : List Char → List Char → List (List Char)
  | [], acc => if acc.isEmpty then [] else [acc.reverse]
  | c :: rest, acc =>
    if c.isWhitespace then
      if acc.isEmpty then pySplitWsAux rest [] else acc.reverse :: pySplitWsAux rest []
    else pySplitWsAux rest (c :: acc)

/-- Python `str.split()` with no argument. -/
def pySplitWs (cs : List Char) : List (List Char) := pySplitWsAux cs []

/-- The first piece of Python `s.split(sep)[0]`: everything before the first
occurrence of `sep` (the whole string when `sep` is absent). -/
def headSplit (sep : Char) (cs : List Char) : List Char :=
  cs.takeWhile (fun c => c ≠ sep)

/-- Value of a digit string, most significant first. -/
def natOfDigits (cs : List Char) : Nat :=
  cs.foldl (fun a c => a * 10 + (c.toNat - '0'.toNat)) 0

/-! ## Python `float()` on decimal literals

`pyDecimalCore` parses an unsigned decimal: digits, optionally followed by a
dot and further digits, with at least one digit present overall — exactly the
strings `float()` accepts among digit/dot strings (`"3"`, `"3."`, `".5"`;
not `""`, `"."`, `"1.2.3"`).  The result is `(num, scale)` with value
`num / 10 ^ scale`. -/

def pyDecimalCore (cs : List Char) : Option (Int × Nat) :=
  let intPart := cs.takeWhile Char.isDigit
  let rest := cs.dropWhile Char.isDigit
  match rest with
  | [] => if intPart.isEmpty then none else some ((natOfDigits intPart : Int), 0)
  | c :: rest2 =>
    if c = '.' && rest2.all Char.isDigit && (!intPart.isEmpty || !rest2.isEmpty) then
      some ((natOfDigits intPart * 10 ^ rest2.length + natOfDigits rest2 : Int), rest2.length)
    else none

/-- Python `float()` on a decimal literal: strip whitespace, read an optional
sign, then an unsigned decimal.  `none` models a raised `ValueError`. -/
def pyDecimal (cs : List Char) : Option (Int × Nat) :=
  match pyStrip cs with
  | [] => none
  | c :: rest =>
    if c = '-' then (pyDecimalCore rest).map (fun p => (-p.1, p.2))
    else if c = '+' then pyDecimalCore rest
    else pyDecimalCore (c :: rest)

/-- Interpret a parse result as the `ℚ` value of the float; a failed parse
is used by the extractors only under a `try/except` that yields `0.0`. -/
def ratOfParse (p : Option (Int × Nat)) : ℚ :=
  match p with
  | some q => (q.1 : ℚ) / 10 ^ q.2
  | none => 0

/-! ## Document model

BeautifulSoup / Selenium DOM fragments are modelled two levels deep, which is
as deep as `web_scraper.py` ever looks: a scraped item (`SoupElement`) owns a
list of sub-nodes (`SoupNode`, the targets of `find` / `find_element`), and a
sub-node owns the `<span>` leaves that `_extract_rating` counts.  `find`
searching the descendants of an item is modelled as a search of this list. -/

/-- A leaf tag, as inspected by `find_all('span', class_='star-filled')`. -/
structure SpanNode where
  tag : String
  cls : String
deriving DecidableEq

/-- A sub-node of a scraped item: tag name, CSS class, the node text
(Python `.text`), its attributes, and its `<span>` leaves. -/
structure SoupNode where
  tag : String
  cls : String
  text : String
  attrs : List (String × String)
  spans : List SpanNode
deriving DecidableEq

/-- One scraped item (a `div.product-item` or `review-item` element). -/
structure SoupElement where
  nodes : List SoupNode
deriving DecidableEq

/-- Model of `element.find(tag, class_=cls)`: first sub-node with this tag and class,
`None` when absent. -/
def SoupElement.findTagCls (e : SoupElement) (tag cls : String) : Option SoupNode :=
  e.nodes.find? (fun n => n.tag = tag && n.cls = cls)

/-- Model of `element.find(tag)` with no class filter. -/
def SoupElement.findTag (e : SoupElement) (tag : String) : Option SoupNode :=
  e.nodes.find? (fun n => n.tag = tag)

/-- Selenium `element.find_element(By.CLASS_NAME, cls)` resolved to an
`Option`; the caller models the `NoSuchElementException` of a `none`. -/
def SoupElement.findCls (e : SoupElement) (cls : String) : Option SoupNode :=
  e.nodes.find? (fun n => n.cls = cls)

/-- Model of `tag.get(key)` on the attribute dictionary: `None` when absent. -/
def tagGet (n : SoupNode) (key : String) : Option String :=
  (n.attrs.find? (fun p => p.1 = key)).map Prod.snd

/-- Python `str.strip()` on a `String`. -/
def pyStripStr (s : String) : String := String.mk (pyStrip s.toList)

/-! ## Field extraction (`web_scraper.py`) -/

/-- Embedding of `EcommerceScraper._clean_price`: keep digit and dot characters, parse as a
float; an empty filtrate or a failed parse (the `except` arm) gives `0.0`. -/
def clean_price (price_text : String) : ℚ :=
  let cleaned := price_text.toList.filter (fun c => c.isDigit || c = '.')
  if cleaned.isEmpty then 0 else ratOfParse (pyDecimal cleaned)

/-- Embedding of `EcommerceScraper._extract_rating`: on text containing `"out of"`, float
of the first whitespace-separated token; else on text containing `"/5"`,
float of the part before the first `/`; else the count of
`span.star-filled` leaves (`0.0` when there are none).  A float failure is
caught by the surrounding `except` and yields `0.0`. -/
def extract_rating (rating_element : SoupNode) : ℚ :=
  let rating_text := pyStrip rating_element.text.toList
  if containsSub "out of".toList rating_text then
    match pySplitWs rating_text with
    | tok :: _ => ratOfParse (pyDecimal tok)
    | [] => 0
  else if containsSub "/5".toList rating_text then
    ratOfParse (pyDecimal (headSplit '/' rating_text))
  else
    let stars := rating_element.spans.filter (fun s => s.tag = "span" && s.cls = "star-filled")
    if stars.isEmpty then 0 else (stars.length : ℚ)

/-- The match of the regex `\d+\.?\d*` starting at a digit: the leading
digits, then optionally a dot and further digits. -/
def numMatchFrom (cs : List Char) : List Char :=
  let ds := cs.takeWhile Char.isDigit
  let rest := cs.dropWhile Char.isDigit
  match rest with
  | '.' :: rest2 => ds ++ '.' :: rest2.takeWhile Char.isDigit
  | _ => ds

/-- Model of `re.findall(r'\d+\.?\d*', s)[0]`: the first (leftmost) match of the
number regex, `none` when the text has no digit. -/
def findNumberMatch : List Char → Option (List Char)
  | [] => none
  | c :: rest =>
    if c.isDigit then some (numMatchFrom (c :: rest)) else findNumberMatch rest

/-- Embedding of `EcommerceScraper._extract_rating_from_text`: float of the first regex
match, `0.0` when there is no match or the float raises. -/
def extract_rating_from_text (rating_text : String) : ℚ :=
  match findNumberMatch rating_text.toList with
  | some m => ratOfParse (pyDecimal m)
  | none => 0

/-- An `ExtractedRecord` produced by `_extract_product_data`.  `image_url`
is `Option String` because `image_url.get('src')` can be Python `None`. -/
structure ProductRecord where
  name : String
  price : ℚ
  rating : ℚ
  image_url : Option String
  category : String
  scraped_at : String
  source : String
deriving DecidableEq

/-- Embedding of `EcommerceScraper._extract_product_data`.  `now` stands for
`datetime.now().isoformat()`.  Every sub-extractor in the body is total, so
the surrounding `try/except` (which would yield `None`) never fires and the
result is always `some` record; missing sub-nodes fall to the
documented per-field defaults of the source. -/
def extract_product_data (element : SoupElement) (category : String)
    (now : String) : Option ProductRecord :=
  let name := element.findTagCls "h3" "product-name"
  let price := element.findTagCls "span" "price"
  let rating := element.findTagCls "div" "rating"
  let image_url := element.findTag "img"
  some {
    name := match name with
      | some n => pyStripStr n.text
      | none => "Unknown"
    price := clean_price (match price with
      | some p => p.text
      | none => "0")
    rating := match rating with
      | some r => extract_rating r
      | none => 0
    image_url := match image_url with
      | some img => tagGet img "src"
      | none => some ""
    category := category
    scraped_at := now
    source := "competitor_site" }

/-- A `ReviewRecord` produced by `_extract_review_data`. -/
structure ReviewRecord where
  product_url : String
  reviewer_name : String
  rating : ℚ
  review_text : String
  review_date : String
  scraped_at : String
deriving DecidableEq

/-- Embedding of `EcommerceScraper._extract_review_data`.  `find_element` raises
`NoSuchElementException` when a class is absent; the `except` arm catches it
and returns `None`, so a record is produced only when all four sub-nodes
resolve.  (The `if reviewer else 'Anonymous'`-style defaults in the source
are dead: `find_element` never returns a falsy value.) -/
def extract_review_data (element : SoupElement) (product_url now : String) :
    Option ReviewRecord :=
  match element.findCls "reviewer-name", element.findCls "review-rating",
      element.findCls "review-text", element.findCls "review-date" with
  | some reviewer, some rating, some tx, some date =>
    some {
      product_url := product_url
      reviewer_name := pyStripStr reviewer.text
      rating := extract_rating_from_text rating.text
      review_text := pyStripStr tx.text
      review_date := pyStripStr date.text
      scraped_at := now }
  | _, _, _, _ => none

/-! ## Configuration (`config.py`) -/

/-- Embedding of `ScrapingConfig` from `src/config.py` with its defaults.  Note that
`max_retries` is declared here but never consulted by `web_scraper.py`. -/
structure ScrapingConfig where
  headless : Bool := true
  delay_range : Nat × Nat := (1, 3)
  max_retries : Nat := 3
  timeout : Nat := 30
deriving DecidableEq

/-- The module-level `SCRAPING_CONFIG = ScrapingConfig()` value. -/
def SCRAPING_CONFIG : ScrapingConfig := {}

/-! ## Static listing crawl (`scrape_product_listings`)

The HTTP world is an explicit environment: `fetch url` is the outcome of
`self.session.get(url)` — either a raised connection/timeout error, or a
response with a status code and the parsed `div.product-item` elements of its
body.  `response.raise_for_status()` raises `HTTPError` exactly for status
codes `≥ 400`.  The crawl state carries a ghost trace of every `get` call so
that the retry discipline is observable.  `_random_delay` only sleeps, so it
has no image in the state. -/

/-- Result of one `session.get` call. -/
inductive FetchResult where
  | conn
  | http (status : Nat) (items : List SoupElement)

/-- Error raised inside the per-page `try` block. -/
inductive FetchError where
  | connection
  | httpStatus (code : Nat)
deriving DecidableEq

/-- The network and clock environment of one listing crawl. -/
structure ListingEnv where
  fetch : String → FetchResult
  now : String

/-- The URL built for a (category, page) pair:
`f"{base_url}/category/{category}?page={page}"`. -/
def buildUrl (base_url category : String) (page : Nat) : String :=
  base_url ++ "/category/" ++ category ++ "?page=" ++ toString page

/-- Model of `session.get(url)` followed by `response.raise_for_status()`. -/
def fetchListingPage (env : ListingEnv) (url : String) :
    Except FetchError (List SoupElement) :=
  match env.fetch url with
  | .conn => .error .connection
  | .http status items =>
    if 400 ≤ status then .error (.httpStatus status) else .ok items

/-- The inner `for element in product_elements` loop: each element is
extracted under its own `try/except`, and appended when truthy. -/
def extractListingItems (env : ListingEnv) (items : List SoupElement)
    (category : String) : List ProductRecord :=
  items.filterMap (fun el => extract_product_data el category env.now)

/-- Crawl state: the `products` accumulator of the source, plus a ghost
trace of the URLs passed to `session.get`, in call order. -/
structure CrawlState where
  products : List ProductRecord
  requests : List String

/-- One iteration of the page loop: build the URL, perform the single `get`
(recorded in the trace), and on success extract and append; any raised
error is caught by the per-page `except`, logged, and the loop continues. -/
def scrapeListingPage (env : ListingEnv) (base_url category : String)
    (page : Nat) (st : CrawlState) : CrawlState :=
  let url := buildUrl base_url category page
  let st1 : CrawlState := { st with requests := st.requests ++ [url] }
  match fetchListingPage env url with
  | .error _ => st1
  | .ok items =>
    { st1 with products := st1.products ++ extractListingItems env items category }

/-- The page range `range(1, max_pages + 1)`. -/
def pageNumbers (max_pages : Nat) : List Nat := List.range' 1 max_pages

/-- Embedding of `EcommerceScraper.scrape_product_listings`: the category × page double
loop over an empty initial accumulator. -/
def scrape_product_listings (env : ListingEnv) (base_url : String)
    (categories : List String) (max_pages : Nat) : CrawlState :=
  categories.foldl
    (fun st category =>
      (pageNumbers max_pages).foldl
        (fun st2 page => scrapeListingPage env base_url category page st2) st)
    { products := [], requests := [] }

/-- The records one (category, page) unit of work contributes: none when its
fetch raises, the extracted records otherwise. -/
def listingUnitRecords (env : ListingEnv) (base_url category : String)
    (page : Nat) : List ProductRecord :=
  match fetchListingPage env (buildUrl base_url category page) with
  | .error _ => []
  | .ok items => extractListingItems env items category

/-! ## Dynamic review crawl (`scrape_reviews_selenium`)

The browser world: `driver_ok` says whether `webdriver.Chrome(...)` launches
(`_setup_selenium_driver` catches a launch exception and returns `None`);
`page url` is what `WebDriverWait(...).until(presence_of_element_located)`
followed by `find_elements(By.CLASS_NAME, "review-item")` observes on that
URL — a timeout, or the loaded review elements. -/

/-- Outcome of waiting for `review-item` on one page. -/
inductive WaitResult where
  | timeout
  | found (elements : List SoupElement)

/-- The browser environment of one review crawl. -/
structure ReviewEnv where
  driver_ok : Bool
  page : String → WaitResult
  now : String

/-- Exception type a dynamic-scrape pass could surface to its caller.  The
source never raises it: a launch failure is caught inside
`_setup_selenium_driver`. -/
inductive DriverError where
  | launchFailure
deriving DecidableEq

/-- Embedding of `EcommerceScraper._setup_selenium_driver`: the driver handle, or `None`
after the caught launch exception. -/
def setup_selenium_driver (env : ReviewEnv) : Option Unit :=
  if env.driver_ok then some () else none

/-- Review crawl state: the `reviews` accumulator plus a ghost trace of the
URLs passed to `driver.get`, in call order. -/
structure ReviewScrapeResult where
  reviews : List ReviewRecord
  visited : List String
deriving DecidableEq

/-- One iteration of the URL loop: `driver.get(url)` (recorded), wait for
`review-item` (a timeout is logged and the URL skipped), then extract from
at most `max_reviews` elements (`find_elements(...)[:max_reviews]`), each
under its own `try/except`. -/
def scrapeReviewUrl (env : ReviewEnv) (max_reviews : Nat)
    (st : ReviewScrapeResult) (url : String) : ReviewScrapeResult :=
  let st1 : ReviewScrapeResult := { st with visited := st.visited ++ [url] }
  match env.page url with
  | .timeout => st1
  | .found elements =>
    let extracted :=
      (elements.take max_reviews).filterMap
        (fun el => extract_review_data el url env.now)
    { st1 with reviews := st1.reviews ++ extracted }

/-- The URL loop of `scrape_reviews_selenium`, from an empty accumulator. -/
def reviewCrawl (env : ReviewEnv) (product_urls : List String)
    (max_reviews : Nat) : ReviewScrapeResult :=
  product_urls.foldl (scrapeReviewUrl env max_reviews)
    { reviews := [], visited := [] }

/-- Embedding of `EcommerceScraper.scrape_reviews_selenium`.  The `Except` result type
records what the pass could surface to its caller; when the driver fails to
launch the source hits `if not driver: return pd.DataFrame()` and the pass
returns a normal, empty result without visiting any URL. -/
def scrape_reviews_selenium (env : ReviewEnv) (product_urls : List String)
    (max_reviews : Nat := 50) : Except DriverError ReviewScrapeResult :=
  match setup_selenium_driver env with
  | none => .ok { reviews := [], visited := [] }
  | some _ => .ok (reviewCrawl env product_urls max_reviews)

/-! ## Tabular loader (`basic_csv_loader.py`)

`SimplePostgreSQLLoader.load_csv_file` is embedded over an in-memory image of
the database (`Database`, table name → table) plus a ghost trace of the SQL
operations it issues, so that write/verification behaviour is observable.
A `DataFrame` read from a CSV is a header plus rows of optional cells
(`none` is a `NaN`).  `pd.to_datetime` on one value is an environment
parameter `DateParser`; pandas raises when any value of the column fails to
parse, which the source catches with `pass`, keeping the column as text. -/

/-- A pandas `DataFrame` as read from a CSV file. -/
structure Frame where
  header : List String
  rows : List (List (Option String))
deriving DecidableEq

/-- A CSV file: the filename stem and its parsed contents. -/
structure CsvFile where
  stem : String
  frame : Frame

/-- Model of `pd.to_datetime` on a single cell value. -/
structure DateParser where
  parse : String → Option String

/-- Lowercase a name and turn spaces and hyphens into underscores — the
effect of `x.lower().replace(' ', '_').replace('-', '_')` (and of the
`.replace('-', '_').replace(' ', '_')` order used for table names). -/
def normalizeName (s : String) : String :=
  String.mk (s.toList.map (fun c => if c = ' ' ∨ c = '-' then '_' else c.toLower))

/-- The default `table_name = csv_path.stem.lower()...` when no table name is given. -/
def resolveTableName (csv : CsvFile) (table_name : Option String) : String :=
  match table_name with
  | some t => t
  | none => normalizeName csv.stem

/-- Whether a lowercased column name contains `'date'`
(`if 'date' in col.lower()`). -/
def isDateColumnName (c : String) : Bool :=
  containsSub "date".toList (normalizeName c).toList

/-- Indices of the date-like columns of a header. -/
def dateColumnIdxs (header : List String) : List Nat :=
  (List.range header.length).filter (fun j => isDateColumnName (header.getD j ""))

/-- Model of `pd.to_datetime(df[col])` under `try/except: pass`: when every present
cell of column `j` parses, the column is coerced cell-wise (a `NaN` stays
missing); when any cell fails, the exception is swallowed and the column is
kept as text. -/
def coerceOneDateColumn (dp : DateParser) (rows : List (List (Option String)))
    (j : Nat) : List (List (Option String)) :=
  if rows.all (fun r => match r.getD j none with
      | none => true
      | some s => (dp.parse s).isSome) then
    rows.map (fun r => r.set j ((r.getD j none).bind dp.parse))
  else rows

/-- The in-memory transformation `load_csv_file` applies to the frame before
writing: normalize column names, drop rows that are entirely empty
(`dropna(how='all')`), then coerce the date-like columns. -/
def prepareFrame (dp : DateParser) (f : Frame) : Frame :=
  let header := f.header.map normalizeName
  let rows := f.rows.filter (fun r => r.any Option.isSome)
  { header := header, rows := (dateColumnIdxs header).foldl (coerceOneDateColumn dp) rows }

/-- The database image: table name → current table, `none` when absent. -/
def Database : Type := String → Option Frame

/-- One SQL-level operation the loader could issue. -/
inductive DbOp where
  | writeReplace (table : String) (f : Frame)
  | countQuery (table : String)
deriving DecidableEq

/-- Whether an operation is a row-count verification read. -/
def DbOp.isCountQuery : DbOp → Bool
  | .countQuery _ => true
  | .writeReplace _ _ => false

/-- Outcome of `load_csv_file`: the boolean the method returns, the database
image after it, and the trace of SQL operations it issued. -/
structure LoadOutcome where
  success : Bool
  db : Database
  ops : List DbOp

/-- Embedding of `SimplePostgreSQLLoader.load_csv_file`: read the frame, resolve the table
name, clean columns / rows / dates, then a single
`df.to_sql(table_name, engine, if_exists='replace', index=False)` — a
full-replace write.  Nothing in the body raises in this model, so the
`except` arm (log and `return False`) is not hit and the method returns
`True`.  The trace records every SQL operation issued: exactly the one
replace-write. -/
def load_csv_file (dp : DateParser) (csv : CsvFile) (table_name : Option String)
    (db : Database) : LoadOutcome :=
  let name := resolveTableName csv table_name
  let df := prepareFrame dp csv.frame
  { success := true
    db := fun t => if t = name then some df else db t
    ops := [DbOp.writeReplace name df] }

/-! ## Derived observations and concrete fixtures -/

/-- The records one URL of the review crawl contributes: none on a wait
timeout, otherwise the records extracted from the first `max_reviews`
review elements. -/
def urlReviewRecords (env : ReviewEnv) (max_reviews : Nat) (url : String) :
    List ReviewRecord :=
  match env.page url with
  | .timeout => []
  | .found elements =>
    (elements.take max_reviews).filterMap (fun el => extract_review_data el url env.now)

/-- The natural key of a review record: (reviewer, date, text). -/
def natKey (r : ReviewRecord) : String × String × String :=
  (r.reviewer_name, r.review_date, r.review_text)

/-- A network in which every URL answers HTTP 500 with an empty body. -/
def env500 : ListingEnv := { fetch := fun _ => .http 500 [], now := "t0" }

/-- A network in which every URL answers HTTP 404 with an empty body. -/
def env404 : ListingEnv := { fetch := fun _ => .http 404 [], now := "t0" }

/-- A `div.rating` node whose text is `"9 out of 10"`. -/
def ratingNode9 : SoupNode :=
  { tag := "div", cls := "rating", text := "9 out of 10", attrs := [], spans := [] }

/-- A complete `review-item` element: all four review sub-nodes present. -/
def reviewElemGood : SoupElement :=
  { nodes := [
      { tag := "div", cls := "reviewer-name", text := "alice", attrs := [], spans := [] },
      { tag := "div", cls := "review-rating", text := "4", attrs := [], spans := [] },
      { tag := "div", cls := "review-text", text := "good", attrs := [], spans := [] },
      { tag := "div", cls := "review-date", text := "2024-01-01", attrs := [], spans := [] }] }

/-- A `review-item` element whose reviewer is present but whose rating
sub-node is missing. -/
def reviewElemNoRating : SoupElement :=
  { nodes := [
      { tag := "div", cls := "reviewer-name", text := "bob", attrs := [], spans := [] },
      { tag := "div", cls := "review-text", text := "ok", attrs := [], spans := [] },
      { tag := "div", cls := "review-date", text := "2024-02-02", attrs := [], spans := [] }] }

/-- A browser world whose driver fails to launch while every page would
offer one extractable review. -/
def envNoDriver : ReviewEnv :=
  { driver_ok := false, page := fun _ => .found [reviewElemGood], now := "t0" }

/-- A working browser world in which every page offers one extractable
review. -/
def envDup : ReviewEnv :=
  { driver_ok := true, page := fun _ => .found [reviewElemGood], now := "t0" }

/-- A date parser accepting every value unchanged. -/
def dpId : DateParser := { parse := fun s => some s }

/-- A small CSV fixture: one column, one row. -/
def csvSample : CsvFile :=
  { stem := "products", frame := { header := ["Name"], rows := [[some "a"]] } }

/-- The empty database image. -/
def dbEmpty : Database := fun _ => none

/-- An element with no sub-nodes at all: every per-field lookup misses. -/
def emptyElem : SoupElement := { nodes := [] }

/-! ## Helper lemmas -/

/-- Stripping whitespace keeps only characters of the original list. -/
theorem pyStrip_subset {c : Char} {cs : List Char} (h : c ∈ pyStrip cs) : c ∈ cs := by
  unfold pyStrip at h
  rw [List.mem_reverse] at h
  have h1 := (List.dropWhile_sublist _).subset h
  rw [List.mem_reverse] at h1
  exact (List.dropWhile_sublist _).subset h1

/-- The numerator of an unsigned decimal parse is nonnegative. -/
theorem pyDecimalCore_nonneg {cs : List Char} {p : Int × Nat}
    (h : pyDecimalCore cs = some p) : 0 ≤ p.1 := by
  simp only [pyDecimalCore] at h
  split at h
  · split at h
    · exact absurd h (by simp)
    · obtain rfl : ((natOfDigits _ : Int), 0) = p := Option.some_injective _ h
      positivity
  · split at h
    · obtain rfl : ((natOfDigits _ * 10 ^ _ + natOfDigits _ : Int), _) = p :=
        Option.some_injective _ h
      positivity
    · exact absurd h (by simp)

/-- The float value of an unsigned decimal parse is nonnegative. -/
theorem ratOfParse_core_nonneg (l : List Char) : 0 ≤ ratOfParse (pyDecimalCore l) := by
  rcases h : pyDecimalCore l with - | p
  · simp [ratOfParse]
  · have := pyDecimalCore_nonneg h
    simp only [ratOfParse]
    have h10 : (0:ℚ) ≤ 10 ^ p.2 := by positivity
    exact div_nonneg (by exact_mod_cast this) h10

/-- Without a minus sign in the text, `float()` cannot produce a negative
value (and a failed parse contributes `0.0`). -/
theorem ratOfParse_pyDecimal_nonneg {cs : List Char} (h : '-' ∉ cs) :
    0 ≤ ratOfParse (pyDecimal cs) := by
  rw [pyDecimal]
  rcases hs : pyStrip cs with - | ⟨c, rest⟩
  · simp [ratOfParse]
  · have hc : c ∈ cs := pyStrip_subset (hs ▸ List.mem_cons_self c rest)
    have hcne : ¬(c = '-') := fun he => h (he ▸ hc)
    dsimp only
    rw [if_neg hcne]
    by_cases hp : c = '+'
    · rw [if_pos hp]; exact ratOfParse_core_nonneg rest
    · rw [if_neg hp]; exact ratOfParse_core_nonneg (c :: rest)

/-- A successful unsigned decimal parse has consumed at least one digit. -/
theorem pyDecimalCore_has_digit {cs : List Char} {p : Int × Nat}
    (h : pyDecimalCore cs = some p) : ∃ c ∈ cs, c.isDigit = true := by
  simp only [pyDecimalCore] at h
  split at h
  · rename_i hdrop
    split at h
    · exact absurd h (by simp)
    · rename_i hne
      rcases ht : cs.takeWhile Char.isDigit with - | ⟨d, ds⟩
      · rw [ht] at hne; simp at hne
      · have hd : d ∈ cs.takeWhile Char.isDigit := ht ▸ List.mem_cons_self d ds
        exact ⟨d, (List.takeWhile_sublist _).subset hd, List.mem_takeWhile_imp hd⟩
  · rename_i c rest2 hdrop
    split at h
    · rename_i hcond
      simp only [Bool.and_eq_true, Bool.or_eq_true, Bool.not_eq_true', decide_eq_true_eq] at hcond
      obtain ⟨⟨-, hall⟩, hor⟩ := hcond
      rcases hor with hint | hrest
      · rcases ht : cs.takeWhile Char.isDigit with - | ⟨d, ds⟩
        · rw [ht] at hint; simp at hint
        · have hd : d ∈ cs.takeWhile Char.isDigit := ht ▸ List.mem_cons_self d ds
          exact ⟨d, (List.takeWhile_sublist _).subset hd, List.mem_takeWhile_imp hd⟩
      · rcases hr : rest2 with - | ⟨d, ds⟩
        · rw [hr] at hrest; simp at hrest
        · have hd : d ∈ cs.dropWhile Char.isDigit := by
            rw [hdrop, hr]; exact List.mem_cons_of_mem _ (List.mem_cons_self d ds)
          have hdig : d.isDigit = true := by
            have : d ∈ rest2 := hr ▸ List.mem_cons_self d ds
            exact (List.all_eq_true.mp hall) d this
          exact ⟨d, (List.dropWhile_sublist _).subset hd, hdig⟩
    · exact absurd h (by simp)

/-- A digit-free text makes `float()` raise: the parse is `none`. -/
theorem pyDecimal_none_of_no_digit {cs : List Char}
    (h : ∀ c ∈ cs, ¬(c.isDigit = true)) : pyDecimal cs = none := by
  have hcore : ∀ l : List Char, (∀ c ∈ l, c ∈ cs) → pyDecimalCore l = none := by
    intro l hl
    rcases hc : pyDecimalCore l with - | p
    · rfl
    · obtain ⟨c, hcl, hdig⟩ := pyDecimalCore_has_digit hc
      exact absurd hdig (h c (hl c hcl))
  rw [pyDecimal]
  rcases hs : pyStrip cs with - | ⟨c, rest⟩
  · rfl
  · have hsub : ∀ x ∈ c :: rest, x ∈ cs := fun x hx => pyStrip_subset (hs ▸ hx)
    dsimp only
    split
    · rw [hcore rest (fun x hx => hsub x (List.mem_cons_of_mem _ hx))]; rfl
    · split
      · exact hcore rest (fun x hx => hsub x (List.mem_cons_of_mem _ hx))
      · exact hcore (c :: rest) hsub

/-- Every character of a number-regex match is a digit or a dot. -/
theorem numMatchFrom_mem {l : List Char} {x : Char} (h : x ∈ numMatchFrom l) :
    x.isDigit = true ∨ x = '.' := by
  simp only [numMatchFrom] at h
  split at h
  · rw [List.mem_append] at h
    rcases h with h | h
    · exact Or.inl (List.mem_takeWhile_imp h)
    · rcases h with - | ⟨-, h⟩
      · exact Or.inr rfl
      · exact Or.inl (List.mem_takeWhile_imp h)
  · exact Or.inl (List.mem_takeWhile_imp h)

/-- The match of `\d+\.?\d*` never contains a minus sign. -/
theorem findNumberMatch_no_minus {cs m : List Char}
    (h : findNumberMatch cs = some m) : '-' ∉ m := by
  induction cs with
  | nil => simp [findNumberMatch] at h
  | cons c rest ih =>
    rw [findNumberMatch] at h
    split at h
    · obtain rfl : numMatchFrom (c :: rest) = m := Option.some_injective _ h
      intro hm
      rcases numMatchFrom_mem hm with hd | hd <;> simp at hd
    · exact ih h

/-- One page-loop iteration appends the unit's records and records exactly
one `session.get` call. -/
theorem scrapeListingPage_eq (env : ListingEnv) (b c : String) (p : Nat) (st : CrawlState) :
    scrapeListingPage env b c p st =
      { products := st.products ++ listingUnitRecords env b c p,
        requests := st.requests ++ [buildUrl b c p] } := by
  rw [scrapeListingPage, listingUnitRecords]
  rcases h : fetchListingPage env (buildUrl b c p) with e | items <;> simp [h]

/-- The page loop of one category, as a flat accumulation over its units. -/
theorem foldlPages_eq (env : ListingEnv) (b c : String) (ps : List Nat) (st : CrawlState) :
    ps.foldl (fun s p => scrapeListingPage env b c p s) st =
      { products := st.products ++ ps.flatMap (fun p => listingUnitRecords env b c p),
        requests := st.requests ++ ps.map (fun p => buildUrl b c p) } := by
  induction ps generalizing st with
  | nil => simp
  | cons p ps ih =>
    rw [List.foldl_cons, ih, scrapeListingPage_eq]
    simp [List.append_assoc]

/-- The whole listing crawl, as a flat accumulation over its
(category, page) units, with its complete request trace. -/
theorem scrape_product_listings_eq (env : ListingEnv) (base : String)
    (cats : List String) (n : Nat) :
    scrape_product_listings env base cats n =
      { products := cats.flatMap
          (fun c => (pageNumbers n).flatMap (fun p => listingUnitRecords env base c p)),
        requests := cats.flatMap (fun c => (pageNumbers n).map (buildUrl base c)) } := by
  rw [scrape_product_listings]
  suffices h : ∀ st : CrawlState,
      cats.foldl (fun st2 c => (pageNumbers n).foldl
        (fun st3 p => scrapeListingPage env base c p st3) st2) st =
      { products := st.products ++ cats.flatMap
          (fun c => (pageNumbers n).flatMap (fun p => listingUnitRecords env base c p)),
        requests := st.requests ++ cats.flatMap (fun c => (pageNumbers n).map (buildUrl base c)) } by
    simpa using h { products := [], requests := [] }
  intro st
  induction cats generalizing st with
  | nil => simp
  | cons c cs ih =>
    rw [List.foldl_cons, ih, foldlPages_eq]
    simp [List.append_assoc]

/-- One URL-loop iteration appends the URL's records and visits it once. -/
theorem scrapeReviewUrl_eq (env : ReviewEnv) (m : Nat) (st : ReviewScrapeResult) (url : String) :
    scrapeReviewUrl env m st url =
      { reviews := st.reviews ++ urlReviewRecords env m url,
        visited := st.visited ++ [url] } := by
  rw [scrapeReviewUrl, urlReviewRecords]
  rcases h : env.page url with - | elements <;> simp [h]

/-- The review crawl, as a flat accumulation over its URLs. -/
theorem reviewCrawl_eq (env : ReviewEnv) (urls : List String) (m : Nat) :
    reviewCrawl env urls m =
      { reviews := urls.flatMap (urlReviewRecords env m), visited := urls } := by
  rw [reviewCrawl]
  suffices h : ∀ st : ReviewScrapeResult,
      urls.foldl (scrapeReviewUrl env m) st =
      { reviews := st.reviews ++ urls.flatMap (urlReviewRecords env m),
        visited := st.visited ++ urls } by
    simpa using h { reviews := [], visited := [] }
  intro st
  induction urls generalizing st with
  | nil => simp
  | cons u us ih =>
    rw [List.foldl_cons, ih, scrapeReviewUrl_eq]
    simp [List.append_assoc]

/-- One URL contributes at most `max_reviews` records. -/
theorem urlReviewRecords_length_le (env : ReviewEnv) (m : Nat) (url : String) :
    (urlReviewRecords env m url).length ≤ m := by
  rw [urlReviewRecords]
  rcases env.page url with - | elements
  · simp
  · calc ((elements.take m).filterMap (fun el => extract_review_data el url env.now)).length
        ≤ (elements.take m).length := List.length_filterMap_le _ _
      _ ≤ m := by simp [List.length_take]

/-- Length bound for a flat accumulation with a uniform per-unit bound. -/
theorem flatMap_length_le {α β : Type} (l : List α) (f : α → List β) (m : Nat)
    (h : ∀ x, (f x).length ≤ m) : (l.flatMap f).length ≤ l.length * m := by
  induction l with
  | nil => simp
  | cons x xs ih =>
    simp only [List.flatMap_cons, List.length_append, List.length_cons]
    calc (f x).length + (xs.flatMap f).length ≤ m + xs.length * m :=
          Nat.add_le_add (h x) ih
      _ = (xs.length + 1) * m := by ring

/-! ## Claims -/

/-- C1 counterexample.  With every response an HTTP 500 and the configured
retry budget `max_retries = 3`, the claim demands up to three attempts
before a `NetworkError`; the crawl in fact issues exactly one `session.get`
for the page's URL, yields no records, and surfaces no error — identically
for a 404, so transient and permanent failures are not distinguished and no
retry ever happens. -/
theorem c1_counterexample :
    (scrape_product_listings env500 "http://s" ["books"] 1).requests.count
        (buildUrl "http://s" "books" 1) = 1 ∧
    (scrape_product_listings env500 "http://s" ["books"] 1).products = [] ∧
    (scrape_product_listings env404 "http://s" ["books"] 1).requests.count
        (buildUrl "http://s" "books" 1) = 1 ∧
    SCRAPING_CONFIG.max_retries = 3 := by
  refine ⟨by decide, by decide, by decide, by decide⟩

/-- C1 (amended): the static crawl performs exactly one HTTP GET per
(category, page) unit — its request trace is the per-unit URL list itself,
independent of any response outcome — so a failing fetch (connection error,
timeout, 4xx or 5xx alike) is never retried, and `max_retries` is never
consulted. -/
theorem c1_single_request_per_page (env : ListingEnv) (base : String)
    (cats : List String) (n : Nat) :
    (scrape_product_listings env base cats n).requests =
      cats.flatMap (fun c => (pageNumbers n).map (buildUrl base c)) := by
  rw [scrape_product_listings_eq]

/-- C2: the listing crawl is a total function whose result is the flat
accumulation of its per-(category, page) units — a unit whose fetch raises
contributes nothing, and every other unit's records are kept, so a failure
is isolated to its unit, the crawl continues through all categories and
pages, and an empty accumulator is an ordinary return value. -/
theorem c2_failure_isolation (env : ListingEnv) (base : String)
    (cats : List String) (n : Nat) :
    (scrape_product_listings env base cats n).products =
      cats.flatMap
        (fun c => (pageNumbers n).flatMap (fun p => listingUnitRecords env base c p)) ∧
    ∀ c p err, fetchListingPage env (buildUrl base c p) = .error err →
      listingUnitRecords env base c p = [] := by
  constructor
  · rw [scrape_product_listings_eq]
  · intro c p err herr
    rw [listingUnitRecords, herr]

/-- C2 witness: the all-500 network makes every unit contribute nothing and
the crawl still returns (an empty record set). -/
theorem c2_failure_isolation_witness :
    (scrape_product_listings env500 "http://s" ["books"] 1).products =
      (["books"] : List String).flatMap
        (fun c => (pageNumbers 1).flatMap
          (fun p => listingUnitRecords env500 "http://s" c p)) ∧
    listingUnitRecords env500 "http://s" "books" 1 = [] := by
  obtain ⟨h1, h2⟩ := c2_failure_isolation env500 "http://s" ["books"] 1
  exact ⟨h1, h2 "books" 1 (FetchError.httpStatus 500) rfl⟩

/-- C3: `load_csv_file` writes with `if_exists='replace'`, so after
`load(A)` then `load(B)` into the same table the table holds exactly the
prepared image of B — independent of A and of whatever the table held
before either load. -/
theorem c3_full_replace (dp : DateParser) (A B : CsvFile) (db : Database)
    (tbl : String) :
    (load_csv_file dp B (some tbl)
        (load_csv_file dp A (some tbl) db).db).db tbl =
      some (prepareFrame dp B.frame) ∧
    ∀ db1 db2 : Database,
      (load_csv_file dp B (some tbl) db1).db tbl =
        (load_csv_file dp B (some tbl) db2).db tbl := by
  constructor
  · simp [load_csv_file, resolveTableName]
  · intro db1 db2
    simp [load_csv_file, resolveTableName]

/-- C4 counterexample.  The rating node with text `"9 out of 10"` extracts
to `9.0`, outside the claimed `[0.0, 5.0]` range: `_extract_rating` returns
`float(text.split()[0])` without clamping. -/
theorem c4_counterexample :
    extract_rating ratingNode9 = 9 ∧ ¬(extract_rating ratingNode9 ≤ 5) := by
  have h9 : extract_rating ratingNode9 = 9 := by
    rw [extract_rating]
    rw [show containsSub "out of".toList (pyStrip ratingNode9.text.toList) = true from by decide]
    simp only [if_true]
    rw [show pySplitWs (pyStrip ratingNode9.text.toList)
          = ["9".toList, "out".toList, "of".toList, "10".toList] from by decide]
    show ratOfParse (pyDecimal "9".toList) = 9
    rw [show pyDecimal "9".toList = some (9, 0) from by decide]
    norm_num [ratOfParse]
  exact ⟨h9, by rw [h9]; norm_num⟩

/-- C4 (amended): ratings are not clamped to `5.0` — pattern-based
extraction returns whatever leading number the text carries — but the
regex-based extractor `_extract_rating_from_text` is nonnegative: its match
`\d+\.?\d*` cannot contain a minus sign, so the extracted rating is
always `≥ 0.0`. -/
theorem c4_rating_from_text_nonneg (s : String) : 0 ≤ extract_rating_from_text s := by
  rw [extract_rating_from_text]
  rcases h : findNumberMatch s.toList with - | m
  · simp
  · exact ratOfParse_pyDecimal_nonneg (findNumberMatch_no_minus h)

/-- C5: price cleaning maps `"$1,234.56"` to `1234.56`; a string with no
digit cleans to `0.0` (the filtrate is empty or all dots, and `float()` of
an all-dot string raises into the `except` arm); and the filtrate never
contains a minus sign, so the result is always nonnegative. -/
theorem c5_clean_price_spec :
    clean_price "$1,234.56" = 1234.56 ∧
    (∀ s : String, (∀ c ∈ s.toList, ¬(c.isDigit = true)) → clean_price s = 0) ∧
    (∀ s : String, 0 ≤ clean_price s) := by
  refine ⟨?_, ?_, ?_⟩
  · have h1 : "$1,234.56".toList.filter (fun c => c.isDigit || c = '.') = "1234.56".toList := by
      decide
    have h2 : pyDecimal "1234.56".toList = some (123456, 2) := by decide
    rw [clean_price, h1, h2]
    norm_num [ratOfParse]
  · intro s hs
    rw [clean_price]
    rcases he : (s.toList.filter (fun c => c.isDigit || c = '.')).isEmpty with - | -
    · have hnone : pyDecimal (s.toList.filter (fun c => c.isDigit || c = '.')) = none := by
        refine pyDecimal_none_of_no_digit ?_
        intro c hc
        exact hs c (List.filter_subset' _ hc)
      rw [he, hnone]
      simp [ratOfParse]
    · rw [he]
      simp
  · intro s
    rw [clean_price]
    rcases he : (s.toList.filter (fun c => c.isDigit || c = '.')).isEmpty with - | -
    · rw [he]
      refine ratOfParse_pyDecimal_nonneg ?_
      intro hmem
      have := List.of_mem_filter hmem
      simp at this
    · rw [he]
      simp

/-- C5 witness: the digit-free input `"free!"` cleans to `0.0`. -/
theorem c5_clean_price_spec_witness : clean_price "free!" = 0 := by
  exact c5_clean_price_spec.2.1 "free!" (by decide)

/-- C6 counterexample.  Scraping the same product URL twice against a page
with one review yields two records with the identical natural key
(reviewer, date, text): nothing deduplicates the accumulated records. -/
theorem c6_counterexample :
    Except.map (fun st => st.reviews.map natKey)
        (scrape_reviews_selenium envDup ["http://p/1", "http://p/1"] 50) =
      .ok [("alice", "2024-01-01", "good"), ("alice", "2024-01-01", "good")] ∧
    ¬ ([("alice", "2024-01-01", "good"), ("alice", "2024-01-01", "good")] :
        List (String × String × String)).Nodup := by
  constructor
  · rfl
  · decide

/-- C6 (amended): no deduplication is performed before load — crawling a
concatenated URL (or category) list concatenates the record lists, so
re-scraping the same URLs appends a second copy of every record, duplicate
(reviewer, date, text) keys included, and listing records likewise
accumulate without any (URL, page) dedup. -/
theorem c6_no_dedup_concat (env : ReviewEnv) (us vs : List String) (m : Nat)
    (env2 : ListingEnv) (base : String) (cats1 cats2 : List String) (n : Nat) :
    (reviewCrawl env (us ++ vs) m).reviews =
      (reviewCrawl env us m).reviews ++ (reviewCrawl env vs m).reviews ∧
    (scrape_product_listings env2 base (cats1 ++ cats2) n).products =
      (scrape_product_listings env2 base cats1 n).products ++
        (scrape_product_listings env2 base cats2 n).products := by
  constructor
  · simp [reviewCrawl_eq]
  · simp [scrape_product_listings_eq]

/-- Helper: cleaning the fallback price text `'0'` gives `0.0`. -/
theorem clean_price_zero : clean_price "0" = 0 := by
  rw [clean_price]
  rw [show ("0".toList.filter fun c => c.isDigit || c = '.') = ['0'] from by decide]
  rw [show pyDecimal ['0'] = some (0, 0) from by decide]
  norm_num [ratOfParse]

/-- C7 counterexample.  On an element with no sub-nodes, product extraction
defaults the name to `"Unknown"`, not the claimed empty string; and review
extraction yields no record at all instead of per-field defaults. -/
theorem c7_counterexample :
    ((extract_product_data emptyElem "books" "t0").map ProductRecord.name) =
      some "Unknown" ∧
    ("Unknown" : String) ≠ "" ∧
    extract_review_data emptyElem "u" "t0" = none := by
  refine ⟨by decide, by decide, by decide⟩

/-- C7 (amended): per-field product extraction is total — it always yields a
record, the `try/except` never fires — and unresolvable fields default to
`0` for `price` and `rating`, `''` for the image URL, but `'Unknown'` for
the name; review extraction drops the whole record (yields none) whenever
any of its four fields is unresolvable, rather than defaulting it. -/
theorem c7_defaults (e : SoupElement) (category now : String) :
    (∃ r, extract_product_data e category now = some r ∧
      ((e.findTagCls "h3" "product-name" = none → r.name = "Unknown") ∧
       (e.findTagCls "span" "price" = none → r.price = 0) ∧
       (e.findTagCls "div" "rating" = none → r.rating = 0) ∧
       (e.findTag "img" = none → r.image_url = some ""))) ∧
    ∀ e2 : SoupElement, ∀ url now2 : String,
      (e2.findCls "reviewer-name" = none ∨ e2.findCls "review-rating" = none ∨
       e2.findCls "review-text" = none ∨ e2.findCls "review-date" = none) →
      extract_review_data e2 url now2 = none := by
  constructor
  · refine ⟨_, rfl, ?_, ?_, ?_, ?_⟩
    · intro h
      show (match e.findTagCls "h3" "product-name" with
        | some n => pyStripStr n.text
        | none => "Unknown") = "Unknown"
      rw [h]
    · intro h
      show clean_price (match e.findTagCls "span" "price" with
        | some p => p.text
        | none => "0") = 0
      rw [h]
      exact clean_price_zero
    · intro h
      show (match e.findTagCls "div" "rating" with
        | some r => extract_rating r
        | none => 0) = (0 : ℚ)
      rw [h]
    · intro h
      show (match e.findTag "img" with
        | some img => tagGet img "src"
        | none => some "") = some ""
      rw [h]
  · intro e2 url now2 h
    rw [extract_review_data]
    rcases h1 : e2.findCls "reviewer-name" with - | r1 <;>
      rcases h2 : e2.findCls "review-rating" with - | r2 <;>
        rcases h3 : e2.findCls "review-text" with - | r3 <;>
          rcases h4 : e2.findCls "review-date" with - | r4 <;>
            simp_all

/-- C7 witness: on the element with no sub-nodes every product default
fires, and a review element with the reviewer present but the rating
sub-node missing yields no record. -/
theorem c7_defaults_witness :
    (∃ r, extract_product_data emptyElem "books" "t0" = some r ∧
      r.name = "Unknown" ∧ r.price = 0 ∧ r.rating = 0 ∧ r.image_url = some "") ∧
    extract_review_data reviewElemNoRating "u1" "t1" = none := by
  obtain ⟨⟨r, hr, h1, h2, h3, h4⟩, hrev⟩ := c7_defaults emptyElem "books" "t0"
  exact ⟨⟨r, hr, h1 (by decide), h2 (by decide), h3 (by decide), h4 (by decide)⟩,
    hrev reviewElemNoRating "u1" "t1" (by decide)⟩

/-- C8 counterexample.  When the driver fails to launch, the pass returns a
normal `.ok` empty result — no error value is surfaced to the caller — and
no URL is visited, even though the page had an extractable review. -/
theorem c8_counterexample :
    scrape_reviews_selenium envNoDriver ["http://p/1"] 50 =
      .ok { reviews := [], visited := [] } ∧
    (urlReviewRecords envNoDriver 50 "http://p/1").length = 1 := by
  constructor
  · rfl
  · rfl

/-- C8 (amended): a driver launch failure makes the dynamic-scrape pass
return an empty record set at once — it visits no URL, so no fallback to
static fetching is attempted — and the failure is only logged, not surfaced
to the caller as an error. -/
theorem c8_launch_failure_empty (env : ReviewEnv) (urls : List String) (m : Nat)
    (h : env.driver_ok = false) :
    scrape_reviews_selenium env urls m = .ok { reviews := [], visited := [] } := by
  rw [scrape_reviews_selenium, setup_selenium_driver, h]
  simp

/-- C8 witness: the launch-failure world with two URLs pending. -/
theorem c8_launch_failure_empty_witness :
    scrape_reviews_selenium envNoDriver ["http://p/1", "http://p/2"] 50 =
      .ok { reviews := [], visited := [] } :=
  c8_launch_failure_empty envNoDriver ["http://p/1", "http://p/2"] 50 rfl

/-- C9 counterexample.  A concrete load issues exactly one replace-write and
nothing else: no row-count verification read follows the write. -/
theorem c9_counterexample :
    (load_csv_file dpId csvSample none dbEmpty).ops =
      [DbOp.writeReplace "products" { header := ["name"], rows := [[some "a"]] }] ∧
    ((load_csv_file dpId csvSample none dbEmpty).ops.all
      (fun op => !op.isCountQuery)) = true := by
  constructor <;> decide

/-- C9 (amended): the loader issues exactly one SQL operation — the
full-replace write — and no post-write row-count verification read; it
reports success from the in-memory frame alone (and an exception would be
caught and reported as a `False` return, not raised or retried). -/
theorem c9_no_verification_read (dp : DateParser) (csv : CsvFile)
    (tbl : Option String) (db : Database) :
    (load_csv_file dp csv tbl db).ops =
      [DbOp.writeReplace (resolveTableName csv tbl) (prepareFrame dp csv.frame)] ∧
    (load_csv_file dp csv tbl db).success = true := by
  constructor <;> rfl

/-- C10: `find_elements(...)[:max_reviews]` bounds each URL's contribution
by `max_reviews`, so every URL yields at most `max_reviews` records and a
crawl of `n` URLs yields at most `n * max_reviews` records in a normal
(`.ok`) completion. -/
theorem c10_max_reviews_bound (env : ReviewEnv) (m : Nat) :
    (∀ url, (urlReviewRecords env m url).length ≤ m) ∧
    (∀ urls : List String, ∃ st, scrape_reviews_selenium env urls m = .ok st ∧
      st.reviews.length ≤ urls.length * m) := by
  constructor
  · exact urlReviewRecords_length_le env m
  · intro urls
    rw [scrape_reviews_selenium, setup_selenium_driver]
    rcases h : env.driver_ok with - | -
    · exact ⟨_, rfl, by simp⟩
    · refine ⟨reviewCrawl env urls m, rfl, ?_⟩
      rw [reviewCrawl_eq]
      exact flatMap_length_le urls _ m (urlReviewRecords_length_le env m)
